import Mathlib

/-!
Verification of the `nhl_predictor` package (odds conversion, win-probability
model, standings aggregation and daily runner) against its specification.

Python floats are embedded as exact rationals (`ℚ`), Python `int` as `ℤ`/`ℕ`,
`None`-able values as `Option`, and JSON dictionaries as explicit records or
lookup functions.  Python's `round` (round-half-to-even on a float, as used by
`int(round(raw))` in `odds.py` and `round(prob, 3)` in `main.py`) is embedded
as `pyRound` below.
-/

namespace NHLPredictor

/-- Python's `round` builtin restricted to one argument: round to the nearest
integer, ties going to the even integer (banker's rounding). -/
def pyRound (x : ℚ) : ℤ :=
  if x - ⌊x⌋ < 1/2 then ⌊x⌋
  else if 1/2 < x - ⌊x⌋ then ⌊x⌋ + 1
  else if ⌊x⌋ % 2 = 0 then ⌊x⌋ else ⌊x⌋ + 1

/-- Embeds `odds.py`, `probability_to_american_odds`: clamp the probability to
`[0.001, 0.999]`, then convert to American odds.  `prob >= 0.5` takes the
favourite branch `-(prob / (1 - prob)) * 100`, otherwise the underdog branch
`((1 - prob) / prob) * 100`, each rounded by Python's `round` and truncated by
`int` (a no-op on the integral value `round` returns). -/
def probability_to_american_odds (prob : ℚ) : ℤ :=
  let p := max (1/1000) (min (999/1000) prob)
  if 1/2 ≤ p then
    -(pyRound (p / (1 - p) * 100))
  else
    pyRound ((1 - p) / p * 100)

-- Basic bounds on `pyRound`: it never strays more than 1/2 from its argument.

theorem pyRound_le (x : ℚ) : (pyRound x : ℚ) ≤ x + 1/2 := by
  unfold pyRound
  have hf : (⌊x⌋ : ℚ) ≤ x := Int.floor_le x
  split
  · linarith
  · split
    · have : x - ⌊x⌋ < 1 := by
        have := Int.sub_one_lt_floor x
        linarith [Int.lt_floor_add_one x]
      push_cast
      linarith [Int.lt_floor_add_one x]
    · split
      · linarith
      · push_cast
        linarith [Int.lt_floor_add_one x]

theorem le_pyRound (x : ℚ) : x - 1/2 ≤ (pyRound x : ℚ) := by
  unfold pyRound
  have hf : (⌊x⌋ : ℚ) ≤ x := Int.floor_le x
  have hc : x < (⌊x⌋ : ℚ) + 1 := Int.lt_floor_add_one x
  split
  · linarith
  · split
    · push_cast; linarith
    · split
      · linarith
      · push_cast; linarith

/-- `pyRound` is monotone: a larger argument never rounds to a smaller
integer. -/
theorem pyRound_mono {x y : ℚ} (hxy : x ≤ y) : pyRound x ≤ pyRound y := by
  by_contra hlt
  push_neg at hlt
  have h1 : pyRound y + 1 ≤ pyRound x := hlt
  have hx : (pyRound x : ℚ) ≤ x + 1/2 := pyRound_le x
  have hy : y - 1/2 ≤ (pyRound y : ℚ) := le_pyRound y
  have hq : (pyRound y : ℚ) + 1 ≤ (pyRound x : ℚ) := by exact_mod_cast h1
  have hxeq : (pyRound x : ℚ) = x + 1/2 := by linarith
  have hyeq : (pyRound y : ℚ) = y - 1/2 := by linarith
  have : x = y := by linarith
  subst this
  omega

theorem pyRound_hundred : pyRound 100 = 100 := by
  unfold pyRound
  norm_num

theorem pyRound_ge_hundred {x : ℚ} (hx : 100 ≤ x) : 100 ≤ pyRound x := by
  have := pyRound_mono (x := 100) (y := x) hx
  rwa [pyRound_hundred] at this

theorem clamp_id {p : ℚ} (h1 : 1/1000 ≤ p) (h2 : p ≤ 999/1000) :
    max (1/1000) (min (999/1000) p) = p := by
  rw [min_eq_right h2, max_eq_right h1]

theorem odds_fav {p : ℚ} (h1 : 1/2 ≤ p) (h2 : p ≤ 999/1000) :
    probability_to_american_odds p = -(pyRound (p / (1 - p) * 100)) := by
  unfold probability_to_american_odds
  rw [clamp_id (by linarith) h2]
  rw [if_pos h1]

theorem odds_dog {p : ℚ} (h1 : 1/1000 ≤ p) (h2 : p < 1/2) :
    probability_to_american_odds p = pyRound ((1 - p) / p * 100) := by
  unfold probability_to_american_odds
  rw [clamp_id h1 (by linarith)]
  rw [if_neg (by linarith)]

theorem raw_fav_ge {p : ℚ} (h1 : 1/2 ≤ p) (h2 : p ≤ 999/1000) :
    100 ≤ p / (1 - p) * 100 := by
  have hpos : (0:ℚ) < 1 - p := by linarith
  have : (1:ℚ) ≤ p / (1 - p) := (one_le_div hpos).mpr (by linarith)
  linarith

theorem raw_dog_ge {p : ℚ} (h1 : 1/1000 ≤ p) (h2 : p ≤ 1/2) :
    100 ≤ (1 - p) / p * 100 := by
  have hpos : (0:ℚ) < p := by linarith
  have : (1:ℚ) ≤ (1 - p) / p := (one_le_div hpos).mpr (by linarith)
  linarith

theorem raw_fav_mono {p q : ℚ} (hpq : p ≤ q) (h2 : q ≤ 999/1000) :
    p / (1 - p) * 100 ≤ q / (1 - q) * 100 := by
  have hq : (0:ℚ) < 1 - q := by linarith
  have hp : (0:ℚ) < 1 - p := by linarith
  have : p / (1 - p) ≤ q / (1 - q) := by
    rw [div_le_div_iff₀ hp hq]
    nlinarith
  linarith

theorem raw_dog_anti {p q : ℚ} (h1 : 1/1000 ≤ p) (hpq : p ≤ q) (h2 : q < 1/2) :
    (1 - q) / q * 100 ≤ (1 - p) / p * 100 := by
  have hp : (0:ℚ) < p := by linarith
  have hq : (0:ℚ) < q := by linarith
  have : (1 - q) / q ≤ (1 - p) / p := by
    rw [div_le_div_iff₀ hq hp]
    nlinarith
  linarith

/-- C5: `probability_to_american_odds` at exactly `0.5` returns `-100`: the
input falls into the favourite branch (`prob >= 0.5`). -/
theorem odds_at_half : probability_to_american_odds (1/2) = -100 := by
  rw [odds_fav (by norm_num) (by norm_num)]
  norm_num
  rw [pyRound_hundred]

/-- C6: for probabilities `p₁ ≤ p₂` in `[0.5, 0.999]`, the odds are negative
integers and the magnitude is non-decreasing in the probability:
`|odds p₁| ≤ |odds p₂|`. -/
theorem odds_fav_neg_mono {p q : ℚ} (h1 : 1/2 ≤ p) (hpq : p ≤ q)
    (h2 : q ≤ 999/1000) :
    probability_to_american_odds p < 0 ∧ probability_to_american_odds q < 0 ∧
      (probability_to_american_odds p).natAbs ≤
        (probability_to_american_odds q).natAbs := by
  have hp2 : p ≤ 999/1000 := le_trans hpq h2
  have hq1 : 1/2 ≤ q := le_trans h1 hpq
  have hrp := pyRound_ge_hundred (raw_fav_ge h1 hp2)
  have hrq := pyRound_ge_hundred (raw_fav_ge hq1 h2)
  have hmono := pyRound_mono (raw_fav_mono hpq h2)
  rw [odds_fav h1 hp2, odds_fav hq1 h2]
  refine ⟨by omega, by omega, ?_⟩
  omega

/-- C6 witness at `p = 0.5`, `q = 0.75`. -/
theorem odds_fav_neg_mono_witness :
    probability_to_american_odds (1/2) < 0 ∧
      probability_to_american_odds (3/4) < 0 ∧
      (probability_to_american_odds (1/2)).natAbs ≤
        (probability_to_american_odds (3/4)).natAbs :=
  odds_fav_neg_mono (by norm_num) (by norm_num) (by norm_num)

/-- C7: for probabilities `p₁ ≤ p₂` in `[0.001, 0.5)`, the odds are positive
integers and non-increasing in the probability (equivalently: as the
probability decreases, the positive odds never decrease):
`odds p₂ ≤ odds p₁`. -/
theorem odds_dog_pos_anti {p q : ℚ} (h1 : 1/1000 ≤ p) (hpq : p ≤ q)
    (h2 : q < 1/2) :
    0 < probability_to_american_odds p ∧ 0 < probability_to_american_odds q ∧
      probability_to_american_odds q ≤ probability_to_american_odds p := by
  have hp2 : p < 1/2 := lt_of_le_of_lt hpq h2
  have hq1 : 1/1000 ≤ q := le_trans h1 hpq
  have hrp := pyRound_ge_hundred (raw_dog_ge h1 (le_of_lt hp2))
  have hrq := pyRound_ge_hundred (raw_dog_ge hq1 (le_of_lt h2))
  have hmono := pyRound_mono (raw_dog_anti h1 hpq h2)
  rw [odds_dog h1 hp2, odds_dog hq1 h2]
  exact ⟨by omega, by omega, hmono⟩

/-- C7 witness at `p = 0.25`, `q = 0.4`. -/
theorem odds_dog_pos_anti_witness :
    0 < probability_to_american_odds (1/4) ∧
      0 < probability_to_american_odds (2/5) ∧
      probability_to_american_odds (2/5) ≤ probability_to_american_odds (1/4) :=
  odds_dog_pos_anti (by norm_num) (by norm_num) (by norm_num)

/-- C10: for every input whatsoever, the returned odds are `≤ -100` or
`≥ +100`: never `0` and never strictly between `-100` and `+100`, because the
input is clamped to `[0.001, 0.999]` and each branch's formula has magnitude
at least `100` on its domain. -/
theorem odds_no_small_values (prob : ℚ) :
    probability_to_american_odds prob ≤ -100 ∨
      100 ≤ probability_to_american_odds prob := by
  unfold probability_to_american_odds
  have hlo : 1/1000 ≤ max (1/1000) (min (999/1000) prob) := le_max_left _ _
  have hhi : max (1/1000) (min (999/1000) prob) ≤ 999/1000 :=
    max_le (by norm_num) (min_le_left _ _)
  set p := max (1/1000) (min (999/1000) prob) with hp
  by_cases hb : 1/2 ≤ p
  · left
    rw [if_pos hb]
    have := pyRound_ge_hundred (raw_fav_ge hb hhi)
    omega
  · right
    rw [if_neg hb]
    push_neg at hb
    exact pyRound_ge_hundred (raw_dog_ge hlo (le_of_lt hb))

/-! ## The win-probability model (`model.py`) -/

-- Integer weights from `WEIGHT_CONFIG`, divided by 100 as in the source.

def HOME_ICE : ℚ := 2/100
def WEIGHT_L10 : ℚ := 10/100
def WEIGHT_SEASON : ℚ := 12/100
def WEIGHT_GOALIE : ℚ := 6/100
def WEIGHT_SPECIAL : ℚ := 3/100
def WEIGHT_H2H : ℚ := 8/100
def WEIGHT_SHOTS : ℚ := 4/100
def WEIGHT_GOAL_DIFF : ℚ := 6/100
def WEIGHT_XG : ℚ := 4/100
def WEIGHT_INJURY : ℚ := 3/100

def BOOK_MARGIN : ℚ := 3/100

def LEAGUE_AVG_SHOT_PCT : ℚ := 95/1000

/-- Embeds `model.py`, `_norm`: clamp `x` into `[lo, hi]` via
`max(lo, min(hi, x))`. -/
def _norm (x lo hi : ℚ) : ℚ := max lo (min hi x)

/-- Embeds `model.py`, `predict_home_win_prob`: combine the factors into a home-win
probability.  The Python truthiness test `(home_shots_per_game or
away_shots_per_game)` is the test that at least one of the two floats is
non-zero; goalie save percentages are `Option`s matching Python's `None`. -/
def predict_home_win_prob
    (home_l10_win_pct away_l10_win_pct : ℚ)
    (home_season_win_pct away_season_win_pct : ℚ)
    (home_goalie_sv_pct away_goalie_sv_pct : Option ℚ)
    (home_special_avg away_special_avg : ℚ)
    (h2h_home_win_pct : ℚ := 1/2) (h2h_games : ℤ := 0)
    (home_shots_per_game : ℚ := 30) (away_shots_per_game : ℚ := 30)
    (home_goal_diff_pg : ℚ := 0) (away_goal_diff_pg : ℚ := 0)
    (home_xg_per_game : ℚ := 0) (away_xg_per_game : ℚ := 0)
    (home_injury : ℚ := 0) (away_injury : ℚ := 0) : ℚ :=
  let prob₀ := 1/2 + HOME_ICE
  let prob₁ := prob₀ + WEIGHT_L10 * (home_l10_win_pct - away_l10_win_pct)
  let prob₂ := prob₁ + WEIGHT_SEASON * (home_season_win_pct - away_season_win_pct)
  let prob₃ :=
    match home_goalie_sv_pct, away_goalie_sv_pct with
    | some h, some a => prob₂ + WEIGHT_GOALIE * (h - a) * 10
    | _, _ => prob₂
  let prob₄ := prob₃ + WEIGHT_SPECIAL * (home_special_avg - away_special_avg) * 5
  let prob₅ :=
    if 0 < h2h_games then prob₄ + WEIGHT_H2H * (h2h_home_win_pct - 1/2) * 2
    else prob₄
  let prob₆ := prob₅ + WEIGHT_GOAL_DIFF * (home_goal_diff_pg - away_goal_diff_pg)
  let shot_diff :=
    if home_shots_per_game ≠ 0 ∨ away_shots_per_game ≠ 0 then
      (home_shots_per_game - away_shots_per_game) / 15
    else 0
  let prob₇ := prob₆ + WEIGHT_SHOTS * _norm shot_diff (-1) 1
  let prob₈ := prob₇ + WEIGHT_XG * (home_xg_per_game - away_xg_per_game)
  let prob₉ := prob₈ + WEIGHT_INJURY * (away_injury - home_injury)
  _norm prob₉ (1/100) (99/100)

/-- C2: with the home goalie save percentage absent (`None`), the output is
independent of the away goalie value: the goalie term is omitted entirely,
never zero-filled, so any away value gives the same result as both `None`. -/
theorem goalie_term_omitted
    (hl10 al10 hseason aseason hspec aspec h2hp : ℚ) (h2hg : ℤ)
    (hshots ashots hgd agd hxg axg hinj ainj : ℚ) (away_sv : Option ℚ) :
    predict_home_win_prob hl10 al10 hseason aseason none away_sv hspec aspec
        h2hp h2hg hshots ashots hgd agd hxg axg hinj ainj =
      predict_home_win_prob hl10 al10 hseason aseason none none hspec aspec
        h2hp h2hg hshots ashots hgd agd hxg axg hinj ainj := by
  unfold predict_home_win_prob
  cases away_sv <;> rfl

/-- C3: with `h2h_games = 0`, the output is independent of the
`h2h_home_win_pct` value: the head-to-head term is applied only when the
meeting count is positive. -/
theorem h2h_term_omitted
    (hl10 al10 hseason aseason hspec aspec : ℚ) (hsv asv : Option ℚ)
    (h2hp₁ h2hp₂ : ℚ)
    (hshots ashots hgd agd hxg axg hinj ainj : ℚ) :
    predict_home_win_prob hl10 al10 hseason aseason hsv asv hspec aspec
        h2hp₁ 0 hshots ashots hgd agd hxg axg hinj ainj =
      predict_home_win_prob hl10 al10 hseason aseason hsv asv hspec aspec
        h2hp₂ 0 hshots ashots hgd agd hxg axg hinj ainj := by
  unfold predict_home_win_prob
  norm_num

/-- C4: for every input tuple, however extreme, the result of
`predict_home_win_prob` lies within `[0.01, 0.99]` (the final clamp). -/
theorem predict_prob_bounds
    (hl10 al10 hseason aseason hspec aspec h2hp : ℚ) (hsv asv : Option ℚ)
    (h2hg : ℤ) (hshots ashots hgd agd hxg axg hinj ainj : ℚ) :
    1/100 ≤ predict_home_win_prob hl10 al10 hseason aseason hsv asv hspec aspec
        h2hp h2hg hshots ashots hgd agd hxg axg hinj ainj ∧
      predict_home_win_prob hl10 al10 hseason aseason hsv asv hspec aspec
        h2hp h2hg hshots ashots hgd agd hxg axg hinj ainj ≤ 99/100 := by
  unfold predict_home_win_prob _norm
  constructor
  · exact le_max_left _ _
  · exact max_le (by norm_num) (min_le_left _ _)

/-- C8: with all-neutral inputs (equal last-10 and season win fractions, equal
special-teams averages, equal shots, equal goal differential and xG, both
goalies `None`, `h2h_games = 0`, zero injuries), the result is exactly
`0.5 + HOME_ICE = 0.52` under the shipped weights (`home_ice = 2`). -/
theorem neutral_inputs_home_ice
    (l10 season spec h2hp shots gd xg : ℚ) :
    predict_home_win_prob l10 l10 season season none none spec spec
        h2hp 0 shots shots gd gd xg xg 0 0 = 52/100 := by
  unfold predict_home_win_prob _norm HOME_ICE WEIGHT_L10 WEIGHT_SEASON
    WEIGHT_SPECIAL WEIGHT_H2H WEIGHT_GOAL_DIFF WEIGHT_SHOTS WEIGHT_XG
    WEIGHT_INJURY
  norm_num

/-! ## Standings aggregation (`nhl_api.py`, `get_standings`) -/

/-- One raw standings row as consumed by `get_standings`: each JSON field may
be absent (`row.get`).  The counts are natural numbers. -/
structure StandingsRow where
  wins : Option ℕ
  losses : Option ℕ
  otLosses : Option ℕ
  gamesPlayed : Option ℕ
  l10Wins : Option ℕ
  l10Losses : Option ℕ
  l10OtLosses : Option ℕ
  l10GamesPlayed : Option ℕ

/-- Python truthiness fallback `row.get("gamesPlayed") or 1`: a missing or
zero value becomes `1`. -/
def orOne (v : Option ℕ) : ℕ :=
  match v with
  | some n => if n = 0 then 1 else n
  | none => 1

/-- Python truthiness fallback `row.get("l10GamesPlayed") or 10`: a missing or
zero value becomes `10`. -/
def orTen (v : Option ℕ) : ℕ :=
  match v with
  | some n => if n = 0 then 10 else n
  | none => 10

/-- The per-team record built by `get_standings`. -/
structure TeamStanding where
  wins : ℕ
  losses : ℕ
  otLosses : ℕ
  gamesPlayed : ℕ
  seasonWinPct : ℚ
  l10Wins : ℕ
  l10Losses : ℕ
  l10OtLosses : ℕ
  l10GamesPlayed : ℕ
  l10WinPct : ℚ
deriving DecidableEq

/-- Embeds the body of `get_standings` for one row: `gp = gamesPlayed or 1`,
`l10gp = l10GamesPlayed or 10`, then
`seasonWinPct = (wins + 0.5*otLosses)/gp if gp else 0.5` and
`l10WinPct = (l10Wins + 0.5*l10OtLosses)/l10gp if l10gp else 0.5`. -/
def mkStanding (r : StandingsRow) : TeamStanding :=
  let gp := orOne r.gamesPlayed
  let l10gp := orTen r.l10GamesPlayed
  { wins := r.wins.getD 0
    losses := r.losses.getD 0
    otLosses := r.otLosses.getD 0
    gamesPlayed := gp
    seasonWinPct :=
      if gp ≠ 0 then ((r.wins.getD 0 : ℚ) + (1/2) * (r.otLosses.getD 0 : ℚ)) / gp
      else 1/2
    l10Wins := r.l10Wins.getD 0
    l10Losses := r.l10Losses.getD 0
    l10OtLosses := r.l10OtLosses.getD 0
    l10GamesPlayed := l10gp
    l10WinPct :=
      if l10gp ≠ 0 then
        ((r.l10Wins.getD 0 : ℚ) + (1/2) * (r.l10OtLosses.getD 0 : ℚ)) / l10gp
      else 1/2 }

/-- Modelled from the spec (for comparison with the code, not from the
source): the claimed win-fraction formula
`(wins + 0.5 × overtime_losses) / games_played`, defaulting to `0.5` when
`games_played` is `0`. -/
def specWinFraction (wins otl gp : ℕ) : ℚ :=
  if gp = 0 then 1/2 else ((wins : ℚ) + (1/2) * (otl : ℚ)) / gp

/-- C1 counterexample: on a row with `gamesPlayed = 0` (wins 3, OT losses 1)
the code divides by the fallback divisor `1` and yields `3.5`, not the claimed
default `0.5`; likewise the last-10 fraction with `l10GamesPlayed = 0` divides
by the fallback `10` and yields `0.35`, not `0.5`.  The `or 1` / `or 10`
fallbacks make the `else 0.5` branches unreachable. -/
theorem standings_zero_gp_cex :
    (mkStanding ⟨some 3, some 0, some 1, some 0, some 3, some 0, some 1,
        some 0⟩).seasonWinPct = 7/2 ∧
      (mkStanding ⟨some 3, some 0, some 1, some 0, some 3, some 0, some 1,
        some 0⟩).l10WinPct = 7/20 ∧
      specWinFraction 3 1 0 = 1/2 ∧ ((7:ℚ)/2 ≠ 1/2) ∧ ((7:ℚ)/20 ≠ 1/2) := by
  refine ⟨?_, ?_, ?_, by norm_num, by norm_num⟩ <;>
    simp [mkStanding, orOne, orTen, specWinFraction] <;> norm_num

/-- C1 (amended): whenever the corresponding games-played count is positive,
each win fraction is `(wins + 0.5 × overtime_losses) / games_played` exactly
as claimed; but when the count is `0` the divisor falls back to `1` (season)
or `10` (last 10) instead of the fraction defaulting to `0.5`. -/
theorem standings_win_fraction (w o g lw lo lg : ℕ) (hg : 0 < g)
    (hl : 0 < lg) :
    (mkStanding ⟨some w, some 0, some o, some g, some lw, some 0, some lo,
        some lg⟩).seasonWinPct = specWinFraction w o g ∧
      (mkStanding ⟨some w, some 0, some o, some g, some lw, some 0, some lo,
        some lg⟩).l10WinPct = specWinFraction lw lo lg ∧
      (mkStanding ⟨some w, some 0, some o, some 0, some lw, some 0, some lo,
        some 0⟩).seasonWinPct = ((w : ℚ) + (1/2) * (o : ℚ)) / 1 ∧
      (mkStanding ⟨some w, some 0, some o, some 0, some lw, some 0, some lo,
        some 0⟩).l10WinPct = ((lw : ℚ) + (1/2) * (lo : ℚ)) / 10 := by
  have hg' : g ≠ 0 := Nat.pos_iff_ne_zero.mp hg
  have hl' : lg ≠ 0 := Nat.pos_iff_ne_zero.mp hl
  refine ⟨?_, ?_, ?_, ?_⟩ <;>
    simp [mkStanding, orOne, orTen, specWinFraction, hg', hl']

/-- C1 witness: a 5-2-1 team through 8 games, 3-1-1 in its last 5. -/
theorem standings_win_fraction_witness :
    (mkStanding ⟨some 5, some 0, some 1, some 8, some 3, some 0, some 1,
        some 5⟩).seasonWinPct = specWinFraction 5 1 8 ∧
      (mkStanding ⟨some 5, some 0, some 1, some 8, some 3, some 0, some 1,
        some 5⟩).l10WinPct = specWinFraction 3 1 5 ∧
      (mkStanding ⟨some 5, some 0, some 1, some 0, some 3, some 0, some 1,
        some 0⟩).seasonWinPct = ((5 : ℚ) + (1/2) * (1 : ℚ)) / 1 ∧
      (mkStanding ⟨some 5, some 0, some 1, some 0, some 3, some 0, some 1,
        some 0⟩).l10WinPct = ((3 : ℚ) + (1/2) * (1 : ℚ)) / 10 :=
  standings_win_fraction 5 1 8 3 1 5 (by norm_num) (by norm_num)

/-! ## The daily runner (`main.py`, `run_predictions`) and `predict_game` -/

/-- Per-team season stats built by `get_team_stats_season`, as consumed by
`predict_game`. -/
structure TeamStats where
  specialTeamsAvg : ℚ
  shotsForPerGame : ℚ
  goalDiffPerGame : ℚ

/-- Lookup with a default, mirroring `standings.get(abbrev) or {}` followed by
`.get(key, default)` / the `_float(v, default)` guard in `predict_game`. -/
def lookupD {α : Type} (t : Option α) (f : α → ℚ) (default : ℚ) : ℚ :=
  match t with
  | some s => f s
  | none => default

/-- Embeds `model.py`, `predict_game`: resolve each factor from the standings
and team-stats tables (with the source's defaults for missing teams), call
`predict_home_win_prob`, apply the bookmaker margin `BOOK_MARGIN` to both
sides, and convert each side to American odds.  Returns
`(home_win_prob, home_odds, away_odds)`. -/
def predict_game (home_abbrev away_abbrev : String)
    (standings : String → Option TeamStanding)
    (team_stats : String → Option TeamStats)
    (home_goalie_sv_pct away_goalie_sv_pct : Option ℚ)
    (h2h_home_win_pct : ℚ := 1/2) (h2h_games : ℤ := 0)
    (home_injury : ℚ := 0) (away_injury : ℚ := 0) : ℚ × ℤ × ℤ :=
  let home_stand := standings home_abbrev
  let away_stand := standings away_abbrev
  let home_team := team_stats home_abbrev
  let away_team := team_stats away_abbrev
  let home_shots_pg := lookupD home_team (fun s => s.shotsForPerGame) 30
  let away_shots_pg := lookupD away_team (fun s => s.shotsForPerGame) 30
  let home_xg_pg := home_shots_pg * LEAGUE_AVG_SHOT_PCT
  let away_xg_pg := away_shots_pg * LEAGUE_AVG_SHOT_PCT
  let prob := predict_home_win_prob
    (lookupD home_stand (fun s => s.l10WinPct) (1/2))
    (lookupD away_stand (fun s => s.l10WinPct) (1/2))
    (lookupD home_stand (fun s => s.seasonWinPct) (1/2))
    (lookupD away_stand (fun s => s.seasonWinPct) (1/2))
    home_goalie_sv_pct away_goalie_sv_pct
    (lookupD home_team (fun s => s.specialTeamsAvg) (1/2))
    (lookupD away_team (fun s => s.specialTeamsAvg) (1/2))
    h2h_home_win_pct h2h_games
    home_shots_pg away_shots_pg
    (lookupD home_team (fun s => s.goalDiffPerGame) 0)
    (lookupD away_team (fun s => s.goalDiffPerGame) 0)
    home_xg_pg away_xg_pg
    home_injury away_injury
  let fair_home := prob
  let fair_away := 1 - prob
  let scale := 1 + BOOK_MARGIN
  (prob, probability_to_american_odds (fair_home * scale),
    probability_to_american_odds (fair_away * scale))

/-- One scheduled game as produced by `get_schedule` (abbreviations may be
missing, as in the source, where the runner falls back to `""`). -/
structure SchedGame where
  id : ℤ
  homeAbbrev : Option String
  awayAbbrev : Option String

/-- One entry of `injuries.json` for a date. -/
structure InjuryEntry where
  team : String
  isTopScorer : Bool

/-- One prediction row of the output payload. -/
structure GamePrediction where
  gameId : ℤ
  date : String
  homeTeam : String
  awayTeam : String
  homeWinProb : ℚ
  homeAmericanOdds : ℤ
  awayAmericanOdds : ℤ
deriving DecidableEq

/-- The payload `run_predictions` returns (the `message` key is present only
in the zero-games case). -/
structure Payload where
  date : String
  games : List GamePrediction
  message : Option String
deriving DecidableEq

/-- The external fetches `run_predictions` performs, recorded so that the
theorems can speak about which remote data is (not) requested. -/
inductive ApiCall where
  | schedule (d : String)
  | standings
  | teamStats
  | goalieSv (d : String) (home away : String) (gameId : ℤ)
  | h2h (home away : String)
deriving DecidableEq

/-- The environment of a run: the remote NHL endpoints and the two local JSON
files, abstracted as total lookup functions. -/
structure Env where
  schedule : String → List SchedGame
  standings : String → Option TeamStanding
  teamStats : String → Option TeamStats
  startingGoalies : String → SchedGame → Option ℚ × Option ℚ
  h2h : String → String → ℚ × ℤ
  injuries : String → List InjuryEntry

/-- Python's `round(prob, 3)`: round to 3 decimal places, ties to even. -/
def pyRound3 (q : ℚ) : ℚ := (pyRound (q * 1000) : ℚ) / 1000

/-- The injury-severity loop of `run_predictions`: for each entry of the
date's injury list matching the home (resp. away) team, raise that side's
severity to `1.0` for a top scorer and `0.5` otherwise. -/
def injurySeverity (by_date : List InjuryEntry) (home away : String) :
    ℚ × ℚ :=
  by_date.foldl
    (fun acc inj =>
      if inj.team = home then
        (max acc.1 (if inj.isTopScorer then 1 else 1/2), acc.2)
      else if inj.team = away then
        (acc.1, max acc.2 (if inj.isTopScorer then 1 else 1/2))
      else acc)
    (0, 0)

/-- Embeds `main.py`, `run_predictions` for an explicitly requested date: if
the date's schedule is empty, return the explanatory payload after the single
schedule fetch; otherwise fetch standings and team stats once, then resolve
goalies, head-to-head and injuries per game and predict it.  The second
component records every external fetch the run performs, in order. -/
def run_predictions (env : Env) (for_date : String) :
    Payload × List ApiCall :=
  let games := env.schedule for_date
  if games.isEmpty then
    ({ date := for_date, games := [],
       message := some "No upcoming games for this date." },
     [ApiCall.schedule for_date])
  else
    let perGame := games.map (fun g =>
      let home_abbrev := g.homeAbbrev.getD ""
      let away_abbrev := g.awayAbbrev.getD ""
      let inj := injurySeverity (env.injuries for_date) home_abbrev away_abbrev
      let sv := env.startingGoalies for_date g
      let hh := env.h2h home_abbrev away_abbrev
      let res := predict_game home_abbrev away_abbrev env.standings
        env.teamStats sv.1 sv.2 hh.1 hh.2 inj.1 inj.2
      ({ gameId := g.id, date := for_date, homeTeam := home_abbrev,
         awayTeam := away_abbrev, homeWinProb := pyRound3 res.1,
         homeAmericanOdds := res.2.1, awayAmericanOdds := res.2.2 },
       [ApiCall.goalieSv for_date home_abbrev away_abbrev g.id,
        ApiCall.h2h home_abbrev away_abbrev]))
    ({ date := for_date, games := perGame.map Prod.fst, message := none },
     ApiCall.schedule for_date :: ApiCall.standings :: ApiCall.teamStats ::
       (perGame.map Prod.snd).flatten)

/-- C9: when the schedule for the requested date has zero games,
`run_predictions` returns normally with an empty games list, the non-null
explanatory message, and the requested date itself, and the only external
fetch performed is the schedule lookup for that very date: standings and team
stats are not fetched and no other date is consulted. -/
theorem no_games_payload (env : Env) (d : String)
    (h : env.schedule d = []) :
    run_predictions env d =
      ({ date := d, games := [],
         message := some "No upcoming games for this date." },
       [ApiCall.schedule d]) := by
  unfold run_predictions
  rw [h]
  rfl

/-- A concrete environment whose schedule is empty everywhere. -/
def emptyEnv : Env where
  schedule := fun _ => []
  standings := fun _ => none
  teamStats := fun _ => none
  startingGoalies := fun _ _ => (none, none)
  h2h := fun _ _ => (1/2, 0)
  injuries := fun _ => []

/-- C9 witness: a concrete empty schedule on a concrete date. -/
theorem no_games_payload_witness :
    run_predictions emptyEnv "2026-02-25" =
      ({ date := "2026-02-25", games := [],
         message := some "No upcoming games for this date." },
       [ApiCall.schedule "2026-02-25"]) :=
  no_games_payload emptyEnv "2026-02-25" rfl

end NHLPredictor
